import Mathlib

/-!
Verification of `st2common/models/db/auth.py`: the identity and credential
record subsystem (UserDB, TokenDB, SSORequestDB, ApiKeyDB).

Python dictionaries are embedded as insertion-ordered association lists;
`d[k] = v` is `dictSet` (update in place, append if absent) and lookup is
`dictGet` (first match).  Values are a small inductive covering the field
types that occur in these records.
-/

namespace St2Auth

/-- A field value inside a serialized record representation (Python dict
value): string, boolean, number, nested dict or nested list. -/
inductive Value where
  | str : String → Value
  | bool : Bool → Value
  | nat : Nat → Value
  | dict : List (String × Value) → Value
  | list : List Value → Value

/-- A serialized representation of a record: a mapping from field name to
value, as an insertion-ordered association list (Python dict). -/
abbrev Rep := List (String × Value)

/-- Lookup `d[k]` on a Python dict: first entry with the key (keys are
unique in an actual dict, so first match is the match). -/
def dictGet : Rep → String → Option Value
  | [], _ => none
  | (k', v') :: rest, k => if k' = k then some v' else dictGet rest k

/-- Assignment `d[k] = v` on a Python dict: overwrite the existing entry in
place, or append a new entry when the key is absent (insertion-order
semantics). -/
def dictSet : Rep → String → Value → Rep
  | [], k, v => [(k, v)]
  | (k', v') :: rest, k, v =>
      if k' = k then (k, v) :: rest else (k', v') :: dictSet rest k v

mutual
/-- Embeds `copy.deepcopy` on a value: structural recursive copy. -/
def deepcopyVal : Value → Value
  | .str s => .str s
  | .bool b => .bool b
  | .nat n => .nat n
  | .dict d => .dict (deepcopyRep d)
  | .list l => .list (deepcopyList l)

/-- Embeds `copy.deepcopy` on a dict: copies every entry recursively. -/
def deepcopyRep : List (String × Value) → List (String × Value)
  | [] => []
  | (k, v) :: rest => (k, deepcopyVal v) :: deepcopyRep rest

/-- Embeds `copy.deepcopy` on a list: copies every element recursively. -/
def deepcopyList : List Value → List Value
  | [] => []
  | v :: rest => deepcopyVal v :: deepcopyList rest
end

/-- Modelled from the spec: `MASKED_ATTRIBUTE_VALUE` from
`st2common.constants.secrets` is not under `src/`; the spec describes it as
"a single well-known constant value substituted for every masked secret
field", the same constant across all record types. -/
def MASKED_ATTRIBUTE_VALUE : Value := Value.str "********"

/-- Modelled from the spec: `ResourceType.API_KEY` from
`st2common.constants.types` is not under `src/`; it is the resource-type
namespace string for API keys. -/
def ResourceType.API_KEY : String := "api_key"

/-- Modelled from the spec: `stormbase.UIDFieldMixin.get_uid` is not under
`src/`; the spec says `uid` is "a deterministic, derived unique identifier
string computed from" the resource-type namespace and the UID fields
(`derive_uid(resource_type="api_key", key_hash)`). -/
def derive_uid (resource_type : String) (key_hash : String) : String :=
  resource_type ++ ":" ++ key_hash

/-- Modelled from the spec: expiry evaluation (`is_expired()`) is not under
`src/`; the spec says a record is expired iff `now() >= expiry`, evaluated
in UTC, a pure function of `expiry` and the current time.  Timestamps are
embedded as `Nat` (microseconds since epoch, UTC). -/
def is_expired (expiry now : Nat) : Bool :=
  expiry ≤ now

/-- A role record returned by the RBAC backend (opaque to this core). -/
structure RoleDB where
  name : String
deriving DecidableEq, Repr

/-- Record `UserDB`: system user. -/
structure UserDB where
  name : String
  is_service : Bool := false
  nicknames : Rep := []

/-- The RBAC backend collaborator's role-resolution service:
`get_roles_for_user(user_db, include_remote)`. External to this core. -/
abbrev RbacService := UserDB → Bool → List RoleDB

/-- Embeds `UserDB.get_roles`: obtains the configured RBAC backend's
service and returns `rbac_service.get_roles_for_user(user_db=self,
include_remote=include_remote)` unchanged. -/
def UserDB.get_roles (rbac_service : RbacService) (self : UserDB)
    (include_remote : Bool := true) : List RoleDB :=
  let result := rbac_service self include_remote
  result

/-- Record `TokenDB`: access token. -/
structure TokenDB where
  user : String
  token : String
  expiry : Nat
  metadata : Rep := []
  service : Bool := false

/-- Expiry evaluation of a token against the current UTC time. -/
def TokenDB.is_expired (t : TokenDB) (now : Nat) : Bool :=
  St2Auth.is_expired t.expiry now

/-- Enum `SSORequestDB.Type`: the `type` field (`cli` / `web`). -/
inductive SSOType where
  | cli
  | web
deriving DecidableEq, Repr

/-- Record `SSORequestDB`: SSO handshake request.  The `key` field is
declared `required=False`, so it is `Option`; no field references `type`. -/
structure SSORequestDB where
  request_id : String
  key : Option String := none
  expiry : Nat
  type : SSOType
deriving DecidableEq, Repr

/-- Expiry evaluation of an SSO request, identical in semantics to
`TokenDB.is_expired`. -/
def SSORequestDB.is_expired (r : SSORequestDB) (now : Nat) : Bool :=
  St2Auth.is_expired r.expiry now

/-- Record `ApiKeyDB`: API key.  The `uid` field comes from
`UIDFieldMixin`. -/
structure ApiKeyDB where
  user : String
  key_hash : String
  metadata : Rep := []
  created_at : Nat
  enabled : Bool := true
  uid : String

/-- Constant `ApiKeyDB.RESOURCE_TYPE = ResourceType.API_KEY`. -/
def ApiKeyDB.RESOURCE_TYPE : String := ResourceType.API_KEY

/-- Constant `ApiKeyDB.UID_FIELDS = ["key_hash"]`. -/
def ApiKeyDB.UID_FIELDS : List String := ["key_hash"]

/-- Method `get_uid` as inherited from `UIDFieldMixin`: derives the UID
from the resource type and the values of `UID_FIELDS` (just `key_hash`). -/
def ApiKeyDB.get_uid (self : ApiKeyDB) : String :=
  derive_uid ApiKeyDB.RESOURCE_TYPE self.key_hash

/-- Embeds `ApiKeyDB.__init__`: the base constructor stores the supplied
values (including any caller-supplied `uid`), then `self.uid =
self.get_uid()` overwrites `uid` with the derived value. -/
def ApiKeyDB.init (user key_hash : String) (metadata : Rep)
    (created_at : Nat) (enabled : Bool) (supplied_uid : Option String) :
    ApiKeyDB :=
  let base : ApiKeyDB :=
    { user := user, key_hash := key_hash, metadata := metadata,
      created_at := created_at, enabled := enabled,
      uid := supplied_uid.getD "" }
  { base with uid := base.get_uid }

/-- Embeds `ApiKeyDB.mask_secrets`: `result = copy.deepcopy(value)`
followed by `result["key_hash"] = MASKED_ATTRIBUTE_VALUE` and
`result["uid"] = MASKED_ATTRIBUTE_VALUE`; returns `result`. -/
def ApiKeyDB.mask_secrets (value : Rep) : Rep :=
  let result := deepcopyRep value
  let result := dictSet result "key_hash" MASKED_ATTRIBUTE_VALUE
  let result := dictSet result "uid" MASKED_ATTRIBUTE_VALUE
  result

/-- Validation failure raised when a field declared `required=True` is
missing at construction/validation time. -/
inductive ValidationError where
  | missing_field : String → ValidationError
deriving DecidableEq, Repr

/-- True exactly when a construction attempt succeeded. -/
def isOk {α : Type} : Except ValidationError α → Bool
  | .ok _ => true
  | .error _ => false

/-- Validating constructor for `TokenDB`: `user`, `token` and `expiry` are
declared `required=True` (with no default), so validation fails when any of
them is missing; `metadata` is optional and `service` has a default, so
they can never be missing.  Supplied values are stored as given. -/
def mkTokenDB (user token : Option String) (expiry : Option Nat)
    (metadata : Rep := []) (service : Bool := false) :
    Except ValidationError TokenDB :=
  match user with
  | none => .error (.missing_field "user")
  | some u =>
    match token with
    | none => .error (.missing_field "token")
    | some t =>
      match expiry with
      | none => .error (.missing_field "expiry")
      | some e =>
        .ok { user := u, token := t, expiry := e,
              metadata := metadata, service := service }

/-- Validating constructor for `SSORequestDB`: `request_id`, `expiry` and
`type` are declared `required=True`; `key` is declared `required=False`
and no validation relates it to `type`.  Supplied values are stored as
given. -/
def mkSSORequestDB (request_id : Option String) (key : Option String)
    (expiry : Option Nat) (type : Option SSOType) :
    Except ValidationError SSORequestDB :=
  match request_id with
  | none => .error (.missing_field "request_id")
  | some rid =>
    match expiry with
    | none => .error (.missing_field "expiry")
    | some e =>
      match type with
      | none => .error (.missing_field "type")
      | some ty =>
        .ok { request_id := rid, key := key, expiry := e, type := ty }

/-- Declaration-level view of a mongoengine field: its `required` and
`unique` flags as written in the source. -/
structure FieldSpec where
  required : Bool
  unique : Bool
deriving DecidableEq, Repr

/-- Field declarations of `UserDB` as written in the source:
`name = StringField(required=True, unique=True)`,
`is_service = BooleanField(required=True, default=False)`,
`nicknames = DictField(required=False)`. -/
def UserDB.fieldDecls : List (String × FieldSpec) :=
  [("name", { required := true, unique := true }),
   ("is_service", { required := true, unique := false }),
   ("nicknames", { required := false, unique := false })]

/-- Field declarations of `TokenDB` as written in the source:
`user = StringField(required=True)`,
`token = StringField(required=True, unique=True)`,
`expiry = DateTimeField(required=True)`,
`metadata = DictField(required=False)`,
`service = BooleanField(required=True, default=False)`. -/
def TokenDB.fieldDecls : List (String × FieldSpec) :=
  [("user", { required := true, unique := false }),
   ("token", { required := true, unique := true }),
   ("expiry", { required := true, unique := false }),
   ("metadata", { required := false, unique := false }),
   ("service", { required := true, unique := false })]

/-- Field declarations of `SSORequestDB` as written in the source:
`request_id = StringField(required=True)`,
`key = StringField(required=False, unique=False)`,
`expiry = DateTimeField(required=True)`,
`type = EnumField(Type, required=True)`. -/
def SSORequestDB.fieldDecls : List (String × FieldSpec) :=
  [("request_id", { required := true, unique := false }),
   ("key", { required := false, unique := false }),
   ("expiry", { required := true, unique := false }),
   ("type", { required := true, unique := false })]

/-- Field declarations of `ApiKeyDB` as written in the source:
`user = StringField(required=True)`,
`key_hash = StringField(required=True, unique=True)`,
`metadata = DictField(required=False)`,
`created_at = ComplexDateTimeField(default=...)`,
`enabled = BooleanField(required=True, default=True)`. -/
def ApiKeyDB.fieldDecls : List (String × FieldSpec) :=
  [("user", { required := true, unique := false }),
   ("key_hash", { required := true, unique := true }),
   ("metadata", { required := false, unique := false }),
   ("created_at", { required := false, unique := false }),
   ("enabled", { required := true, unique := false })]

/-- Index declarations of `ApiKeyDB` as written in the source:
`meta = {"indexes": [{"fields": ["user"]}, {"fields": ["key_hash"]}]}`. -/
def ApiKeyDB.meta_indexes : List (List String) :=
  [["user"], ["key_hash"]]

/-- The names of the fields a model declares with `unique=True`: the
uniqueness constraints this core requests from the persistence store. -/
def uniqueFields (decls : List (String × FieldSpec)) : List String :=
  (decls.filter (fun d => d.2.unique)).map (fun d => d.1)

mutual
/-- Deep copy of a value is the value itself (at the level of values). -/
theorem deepcopyVal_id : (v : Value) → deepcopyVal v = v
  | .str _ => rfl
  | .bool _ => rfl
  | .nat _ => rfl
  | .dict d => by rw [deepcopyVal, deepcopyRep_id d]
  | .list l => by rw [deepcopyVal, deepcopyList_id l]

/-- Deep copy of a dict is the dict itself (at the level of values). -/
theorem deepcopyRep_id : (d : List (String × Value)) → deepcopyRep d = d
  | [] => rfl
  | (k, v) :: rest => by rw [deepcopyRep, deepcopyVal_id v, deepcopyRep_id rest]

/-- Deep copy of a list is the list itself (at the level of values). -/
theorem deepcopyList_id : (l : List Value) → deepcopyList l = l
  | [] => rfl
  | v :: rest => by rw [deepcopyList, deepcopyVal_id v, deepcopyList_id rest]
end

/-- Looking up the key just assigned yields the assigned value. -/
theorem dictGet_dictSet_self (d : Rep) (k : String) (v : Value) :
    dictGet (dictSet d k v) k = some v := by
  induction d with
  | nil => simp [dictSet, dictGet]
  | cons hd tl ih =>
    obtain ⟨k1, v1⟩ := hd
    by_cases h : k1 = k
    · simp [dictSet, dictGet, h]
    · simp [dictSet, dictGet, h, ih]

/-- Assigning one key leaves lookups of every other key unchanged. -/
theorem dictGet_dictSet_ne (d : Rep) (k1 k : String) (v : Value)
    (h : k1 ≠ k) : dictGet (dictSet d k1 v) k = dictGet d k := by
  induction d with
  | nil => simp [dictSet, dictGet, h]
  | cons hd tl ih =>
    obtain ⟨k2, v2⟩ := hd
    by_cases h2 : k2 = k1
    · subst h2; simp [dictSet, dictGet, h]
    · by_cases h3 : k2 = k <;> simp [dictSet, dictGet, h2, h3, ih, Ne.symm h]

/-- Assigning a key that is absent appends the new entry at the end. -/
theorem dictSet_absent (d : Rep) (k : String) (v : Value)
    (h : dictGet d k = none) : dictSet d k v = d ++ [(k, v)] := by
  induction d with
  | nil => rfl
  | cons hd tl ih =>
    obtain ⟨k1, v1⟩ := hd
    by_cases h1 : k1 = k
    · rw [dictGet, if_pos h1] at h; cases h
    · rw [dictGet, if_neg h1] at h
      rw [dictSet, if_neg h1, ih h]
      rfl

/-- Appending an entry for a different key does not change a lookup. -/
theorem dictGet_append_singleton_ne (d : Rep) (k1 k : String) (v : Value)
    (h : k1 ≠ k) : dictGet (d ++ [(k1, v)]) k = dictGet d k := by
  induction d with
  | nil => simp [dictGet, h]
  | cons hd tl ih =>
    obtain ⟨k2, v2⟩ := hd
    by_cases h2 : k2 = k <;> simp [dictGet, h2, ih]

/-- C1: for every exported representation of an API Key,
`ApiKeyDB.mask_secrets` returns a representation whose `key_hash` and
`uid` fields both equal the masking sentinel, unconditionally (no
privileged unmasked path); consequently no value other than the sentinel —
in particular, never the literal `key_hash` or `uid` when they differ from
the sentinel — appears in those fields of the output. -/
theorem mask_secrets_unconditionally_masks (rep : Rep) :
    dictGet (ApiKeyDB.mask_secrets rep) "key_hash" = some MASKED_ATTRIBUTE_VALUE ∧
    dictGet (ApiKeyDB.mask_secrets rep) "uid" = some MASKED_ATTRIBUTE_VALUE ∧
    ∀ v : Value, v ≠ MASKED_ATTRIBUTE_VALUE →
      dictGet (ApiKeyDB.mask_secrets rep) "key_hash" ≠ some v ∧
      dictGet (ApiKeyDB.mask_secrets rep) "uid" ≠ some v := by
  have hkh : dictGet (ApiKeyDB.mask_secrets rep) "key_hash"
      = some MASKED_ATTRIBUTE_VALUE := by
    unfold ApiKeyDB.mask_secrets
    rw [dictGet_dictSet_ne _ _ _ _ (by decide : ("uid" : String) ≠ "key_hash"),
      dictGet_dictSet_self]
  have huid : dictGet (ApiKeyDB.mask_secrets rep) "uid"
      = some MASKED_ATTRIBUTE_VALUE := by
    unfold ApiKeyDB.mask_secrets
    rw [dictGet_dictSet_self]
  refine ⟨hkh, huid, fun v hv => ⟨?_, ?_⟩⟩
  · rw [hkh]; exact fun h => hv (Option.some.inj h).symm
  · rw [huid]; exact fun h => hv (Option.some.inj h).symm

/-- C2: the `uid` of every constructed API Key record equals
`derive_uid(RESOURCE_TYPE, key_hash)`, a pure function of the
resource-type namespace and `key_hash`; a caller-supplied `uid` has no
effect, and any two records constructed with the same `key_hash` have
identical `uid`. -/
theorem apikey_uid_is_function_of_key_hash (user key_hash : String)
    (metadata : Rep) (created_at : Nat) (enabled : Bool)
    (supplied_uid : Option String) :
    (ApiKeyDB.init user key_hash metadata created_at enabled supplied_uid).uid
      = derive_uid ApiKeyDB.RESOURCE_TYPE key_hash ∧
    ∀ (u2 : String) (m2 : Rep) (c2 : Nat) (e2 : Bool) (s2 : Option String),
      (ApiKeyDB.init u2 key_hash m2 c2 e2 s2).uid
        = (ApiKeyDB.init user key_hash metadata created_at enabled
            supplied_uid).uid :=
  ⟨rfl, fun _ _ _ _ _ => rfl⟩

/-- C3 counterexample: an SSO Request record with `type = web` and a
populated `key` is constructible, so "`key` is populated iff `type ==
cli`" does not hold for every constructible record. -/
theorem sso_web_with_key_is_constructible :
    mkSSORequestDB (some "request-1") (some "symmetric-key") (some 100)
        (some SSOType.web)
      = Except.ok { request_id := "request-1", key := some "symmetric-key",
                    expiry := 100, type := SSOType.web } ∧
    ¬ (Option.isSome (SSORequestDB.key
          { request_id := "request-1", key := some "symmetric-key",
            expiry := 100, type := SSOType.web }) = true
        ↔ SSORequestDB.type
          { request_id := "request-1", key := some "symmetric-key",
            expiry := 100, type := SSOType.web } = SSOType.cli) :=
  ⟨rfl, by decide⟩

/-- C3 (amended): the record stores `key` exactly as supplied, independent
of `type`, with no cross-field validation; the key-iff-cli invariant is the
caller's responsibility, not enforced by the record. -/
theorem sso_key_stored_independent_of_type (rid : String)
    (k : Option String) (e : Nat) (ty : SSOType) :
    mkSSORequestDB (some rid) k (some e) (some ty)
      = Except.ok { request_id := rid, key := k, expiry := e, type := ty } :=
  rfl

/-- C4: `ApiKeyDB.mask_secrets` works on a deep copy whose value equals the
input (the input representation is not altered), and every field other
than `key_hash` and `uid` is preserved exactly in the output. -/
theorem mask_secrets_preserves_other_fields (rep : Rep) :
    deepcopyRep rep = rep ∧
    ∀ k : String, k ≠ "key_hash" → k ≠ "uid" →
      dictGet (ApiKeyDB.mask_secrets rep) k = dictGet rep k := by
  refine ⟨deepcopyRep_id rep, fun k hkh huid => ?_⟩
  unfold ApiKeyDB.mask_secrets
  rw [dictGet_dictSet_ne _ _ _ _ (Ne.symm huid),
    dictGet_dictSet_ne _ _ _ _ (Ne.symm hkh), deepcopyRep_id]

/-- C5: both `TokenDB.is_expired` and `SSORequestDB.is_expired` are pure
functions of the record's `expiry` and the current time; they return
`false` when `expiry` is in the future, `true` when `expiry` is in the
past, and classify the boundary `expiry == now` as expired. -/
theorem is_expired_pure_with_boundary_expired (t : TokenDB)
    (r : SSORequestDB) (now : Nat) :
    (t.is_expired now = is_expired t.expiry now) ∧
    (r.is_expired now = is_expired r.expiry now) ∧
    (now < t.expiry → t.is_expired now = false) ∧
    (t.expiry < now → t.is_expired now = true) ∧
    (t.expiry = now → t.is_expired now = true) ∧
    (now < r.expiry → r.is_expired now = false) ∧
    (r.expiry < now → r.is_expired now = true) ∧
    (r.expiry = now → r.is_expired now = true) := by
  refine ⟨rfl, rfl, ?_, ?_, ?_, ?_, ?_, ?_⟩ <;> intro h <;>
    simp [TokenDB.is_expired, SSORequestDB.is_expired, is_expired] <;> omega

/-- C6: `UserDB.get_roles` delegates to the RBAC backend's role-resolution
service, passing this user and the `include_remote` flag unchanged, and
returns exactly the sequence the backend returns, in the backend's order,
with no caching, filtering or reordering. -/
theorem get_roles_delegates_to_backend (rbac_service : RbacService)
    (u : UserDB) (include_remote : Bool) :
    UserDB.get_roles rbac_service u include_remote
      = rbac_service u include_remote :=
  rfl

/-- C7: the store-enforced uniqueness constraints are declared on exactly
`name` (User), `token` (Token) and `key_hash` (API Key); no SSO Request
field (in particular neither `request_id` nor `key`) is declared unique;
and API Key declares `user` and `key_hash` as indexed lookup fields. -/
theorem uniqueness_and_index_declarations :
    uniqueFields UserDB.fieldDecls = ["name"] ∧
    uniqueFields TokenDB.fieldDecls = ["token"] ∧
    uniqueFields ApiKeyDB.fieldDecls = ["key_hash"] ∧
    uniqueFields SSORequestDB.fieldDecls = [] ∧
    ApiKeyDB.meta_indexes = [["user"], ["key_hash"]] :=
  ⟨rfl, rfl, rfl, rfl, rfl⟩

/-- C8: constructing a Token record fails with a validation error exactly
when one of the required fields `user`, `token`, `expiry` is missing; when
all three are supplied, construction succeeds and stores the supplied
values unchanged (no coercion, no dropping). -/
theorem token_construction_validates_required_fields
    (user token : Option String) (expiry : Option Nat) (metadata : Rep)
    (service : Bool) :
    (isOk (mkTokenDB user token expiry metadata service)
      = (user.isSome && token.isSome && expiry.isSome)) ∧
    ∀ (u t : String) (e : Nat),
      mkTokenDB (some u) (some t) (some e) metadata service
        = Except.ok { user := u, token := t, expiry := e,
                      metadata := metadata, service := service } := by
  constructor
  · cases user <;> cases token <;> cases expiry <;> rfl
  · intro u t e; rfl

/-- C9: constructing an SSO Request with `type = web` and a non-empty
`key` is accepted, and constructing one with `type = cli` and no `key` is
accepted: the record treats `key` as optional and performs no cross-field
check of `key` against `type`. -/
theorem sso_construction_accepts_any_key_type_combination :
    mkSSORequestDB (some "r1") (some "k1") (some 50) (some SSOType.web)
      = Except.ok { request_id := "r1", key := some "k1", expiry := 50,
                    type := SSOType.web } ∧
    mkSSORequestDB (some "r2") none (some 60) (some SSOType.cli)
      = Except.ok { request_id := "r2", key := none, expiry := 60,
                    type := SSOType.cli } :=
  ⟨rfl, rfl⟩

/-- C10: when the input representation has no `key_hash` and no `uid`
entry, `ApiKeyDB.mask_secrets` inserts both entries with the masking
sentinel (the output is the input with the two sentinel entries appended),
so a masked export of a partial representation always contains both
sentinel fields. -/
theorem mask_secrets_inserts_absent_sentinel_fields (rep : Rep)
    (hkh : dictGet rep "key_hash" = none)
    (huid : dictGet rep "uid" = none) :
    ApiKeyDB.mask_secrets rep
      = rep ++ [("key_hash", MASKED_ATTRIBUTE_VALUE),
                ("uid", MASKED_ATTRIBUTE_VALUE)] := by
  have h1 : ApiKeyDB.mask_secrets rep
      = dictSet (dictSet (deepcopyRep rep) "key_hash" MASKED_ATTRIBUTE_VALUE)
          "uid" MASKED_ATTRIBUTE_VALUE := rfl
  rw [h1, deepcopyRep_id, dictSet_absent _ _ _ hkh,
    dictSet_absent _ _ _ (by
      rw [dictGet_append_singleton_ne _ _ _ _
        (by decide : ("key_hash" : String) ≠ "uid")]
      exact huid),
    List.append_assoc]
  rfl

/-- Witness for C10 at a concrete partial representation. -/
theorem mask_secrets_inserts_absent_sentinel_fields_witness :
    ApiKeyDB.mask_secrets [("user", Value.str "alice")]
      = [("user", Value.str "alice"),
         ("key_hash", MASKED_ATTRIBUTE_VALUE),
         ("uid", MASKED_ATTRIBUTE_VALUE)] :=
  mask_secrets_inserts_absent_sentinel_fields
    [("user", Value.str "alice")] rfl rfl

end St2Auth
